import Mathlib

/-!
The VuePress configuration of docs-next (`src/.vuepress/config.js`).

The module is one JavaScript file: a constant `sidebar` (an object literal) and
the object literal assigned to `module.exports`, which reads four members of
`sidebar`.  JavaScript values are embedded as the type `JSVal`; an object
literal is the list of its `key: value` pairs in source order, an array literal
the list of its elements in source order.  Property access, array indexing and
the comma operator are Lean functions on `JSVal`.  Evaluating the module creates
two function objects, one for each arrow function; the evaluation passes the
number of function objects created so far as its state.
-/

/-- The two arrow functions of the file, as values: `before` (the `info`
container opening tag, `info => ...`) and `extendMarkdown` (`md => ...`). -/
inductive Closure where
  | before
  | extendMarkdown

/-- JavaScript values occurring in the configuration.  A function value is
which arrow function of the file it is together with the identity of the
function object: each evaluation of an arrow function expression creates a new
function object, and `id` is its number in creation order.  Objects and arrays
carry no identity, equality of their contents being all the file and the
properties below look at. -/
inductive JSVal where
  | undefined
  | str (s : String)
  | bool (b : Bool)
  | num (n : Int)
  | fn (c : Closure) (id : Nat)
  | arr (items : List JSVal)
  | obj (fields : List (String × JSVal))

namespace JSVal

/-- The value of the first pair with key `key` in a list of `key: value` pairs,
`undefined` when there is none.  No object literal of the file repeats a key,
so the first pair is the only one. -/
def lookupField (key : String) : List (String × JSVal) → JSVal
  | [] => .undefined
  | (k, v) :: rest => if k = key then v else lookupField key rest

/-- Property access `v.key` (also written `v[key]`): `undefined` when the
object has no such key or `v` is no object. -/
def member (v : JSVal) (key : String) : JSVal :=
  match v with
  | .obj fields => lookupField key fields
  | _ => .undefined

/-- Array indexing `v[i]`, counting from 0: `undefined` past the end or when
`v` is no array. -/
def index (v : JSVal) (i : Nat) : JSVal :=
  match v with
  | .arr items => items.getD i .undefined
  | _ => .undefined

/-- The own keys of an object in source order (`Object.keys`). -/
def keys (v : JSVal) : List String :=
  match v with
  | .obj fields => fields.map Prod.fst
  | _ => []

/-- The own `key: value` pairs of an object in source order
(`Object.entries`). -/
def entries (v : JSVal) : List (String × JSVal) :=
  match v with
  | .obj fields => fields
  | _ => []

/-- The number of elements of an array (`v.length`), `none` when `v` is no
array. -/
def length? (v : JSVal) : Option Nat :=
  match v with
  | .arr items => some items.length
  | _ => none

/-- The string a value is, `none` when it is no string. -/
def str? (v : JSVal) : Option String :=
  match v with
  | .str s => some s
  | _ => none

/-- Whether an object has the own key `key` (`key in v`). -/
def hasKey (v : JSVal) (key : String) : Bool :=
  (keys v).contains key

end JSVal

/-- The comma operator `(left, right)`: both operands are evaluated and the
value is that of the right one. -/
def comma (_left right : JSVal) : JSVal := right

/-- The body of the arrow function `before`: the template literal with `info`
spliced in. -/
def before (info : String) : String :=
  "<div class=\"custom-block info\"><p class=\"custom-block-title\">" ++ info ++ "</p>"

/-- The constant `sidebar` (lines 1-203). -/
def sidebar : JSVal :=
  .obj [
    ("cookbook", .arr [
      .obj [
        ("title", .str "Libro de Recetas"),
        ("collapsable", .bool false),
        ("children", .arr [.str "/cookbook/", .str "/cookbook/editable-svg-icons"])
      ]
    ]),
    ("guide", .arr [
      .obj [
        ("title", .str "Conocimientos Esenciales"),
        ("collapsable", .bool false),
        ("children", .arr [
          .str "/guide/installation",
          .str "/guide/introduction",
          .str "/guide/instance",
          .str "/guide/template-syntax",
          .str "/guide/data-methods",
          .str "/guide/computed",
          .str "/guide/class-and-style",
          .str "/guide/conditional",
          .str "/guide/list",
          .str "/guide/events",
          .str "/guide/forms",
          .str "/guide/component-basics"
        ])
      ],
      .obj [
        ("title", .str "Componentes en Profundidad"),
        ("collapsable", .bool false),
        ("children", .arr [
          .str "/guide/component-registration",
          .str "/guide/component-props",
          .str "/guide/component-attrs",
          .str "/guide/component-custom-events",
          .str "/guide/component-slots",
          .str "/guide/component-provide-inject",
          .str "/guide/component-dynamic-async",
          .str "/guide/component-template-refs",
          .str "/guide/component-edge-cases"
        ])
      ],
      .obj [
        ("title", .str "Transiciones & Animaciones"),
        ("collapsable", .bool false),
        ("children", .arr [
          .str "/guide/transitions-overview",
          .str "/guide/transitions-enterleave",
          .str "/guide/transitions-list",
          .str "/guide/transitions-state"
        ])
      ],
      .obj [
        ("title", .str "Reusabilidad & Composición"),
        ("collapsable", .bool false),
        ("children", .arr [
          .str "/guide/mixins",
          .str "/guide/custom-directive",
          .str "/guide/teleport",
          .str "/guide/render-function",
          .str "/guide/plugins"
        ])
      ],
      .obj [
        ("title", .str "Guías Avanzadas"),
        ("collapsable", .bool false),
        ("children", .arr [
          .obj [
            ("title", .str "Reactividad"),
            ("children", .arr [
              .str "/guide/reactivity",
              .str "/guide/reactivity-fundamentals",
              .str "/guide/reactivity-computed-watchers"
            ])
          ],
          .obj [
            ("title", .str "API de Composición"),
            ("children", .arr [
              .str "/guide/composition-api-introduction",
              .str "/guide/composition-api-setup",
              .str "/guide/composition-api-lifecycle-hooks",
              .str "/guide/composition-api-provide-inject",
              .str "/guide/composition-api-template-refs"
            ])
          ],
          .str "/guide/optimizations",
          .str "/guide/change-detection"
        ])
      ],
      .obj [
        ("title", .str "Herramientas"),
        ("collapsable", .bool false),
        ("children", .arr [
          .str "/guide/single-file-component",
          .str "/guide/testing",
          .str "/guide/typescript-support",
          .str "/guide/mobile"
        ])
      ],
      .obj [
        ("title", .str "Escalando la Aplicación"),
        ("collapsable", .bool false),
        ("children", .arr [.str "/guide/routing", .str "/guide/state-management", .str "/guide/ssr"])
      ],
      .obj [
        ("title", .str "Accesibilidad"),
        ("collapsable", .bool false),
        ("children", .arr [
          .str "/guide/a11y-basics",
          .str "/guide/a11y-semantics",
          .str "/guide/a11y-standards",
          .str "/guide/a11y-resources"
        ])
      ],
      .obj [
        ("title", .str "Guía de Migración"),
        ("collapsable", .bool true),
        ("children", .arr [
          .str "/guide/migration/introduction",
          .str "/guide/migration/array-refs",
          .str "/guide/migration/async-components",
          .str "/guide/migration/attribute-coercion",
          .str "/guide/migration/custom-directives",
          .str "/guide/migration/custom-elements-interop",
          .str "/guide/migration/data-option",
          .str "/guide/migration/events-api",
          .str "/guide/migration/filters",
          .str "/guide/migration/fragments",
          .str "/guide/migration/functional-components",
          .str "/guide/migration/global-api",
          .str "/guide/migration/global-api-treeshaking",
          .str "/guide/migration/inline-template-attribute",
          .str "/guide/migration/key-attribute",
          .str "/guide/migration/keycode-modifiers",
          .str "/guide/migration/props-default-this",
          .str "/guide/migration/render-function-api",
          .str "/guide/migration/slots-unification",
          .str "/guide/migration/transition",
          .str "/guide/migration/v-model",
          .str "/guide/migration/v-if-v-for",
          .str "/guide/migration/v-bind"
        ])
      ],
      .obj [
        ("title", .str "Contribuya con la Documentación"),
        ("collapsable", .bool true),
        ("children", .arr [
          .str "/guide/contributing/writing-guide",
          .str "/guide/contributing/doc-style-guide",
          .str "/guide/contributing/translations"
        ])
      ]
    ]),
    ("api", .arr [
      .str "/api/application-config",
      .str "/api/application-api",
      .str "/api/global-api",
      .obj [
        ("title", .str "Opciones"),
        ("collapsable", .bool false),
        ("children", .arr [
          .str "/api/options-data",
          .str "/api/options-dom",
          .str "/api/options-lifecycle-hooks",
          .str "/api/options-assets",
          .str "/api/options-composition",
          .str "/api/options-misc"
        ])
      ],
      .str "/api/instance-properties",
      .str "/api/instance-methods",
      .str "/api/directives",
      .str "/api/special-attributes",
      .str "/api/built-in-components.md",
      .obj [
        ("title", .str "API de Reactividad"),
        ("collapsable", .bool false),
        ("children", .arr [
          .str "/api/basic-reactivity",
          .str "/api/refs-api",
          .str "/api/computed-watch-api"
        ])
      ],
      .str "/api/composition-api"
    ]),
    ("examples", .arr [
      .obj [
        ("title", .str "Ejemplos"),
        ("collapsable", .bool false),
        ("children", .arr [
          .str "/examples/markdown",
          .str "/examples/commits",
          .str "/examples/grid-component",
          .str "/examples/tree-view",
          .str "/examples/svg",
          .str "/examples/modal",
          .str "/examples/elastic-header",
          .str "/examples/select2",
          .str "/examples/todomvc"
        ])
      ]
    ])
  ]

/-- The object literal assigned to `module.exports` (lines 205-429), evaluated
when `next` function objects exist already.  The four `sidebar.x` member reads
are property accesses on the constant `sidebar`; the eleventh head entry is
written with the parenthesised comma expression of lines 255-258; the arrow
function `before` (line 414) is function object number `next` and
`extendMarkdown` (line 423) is number `next + 1`. -/
def exportsLiteral (next : Nat) : JSVal :=
  .obj [
    ("title", .str "Vue.js"),
    ("description", .str "Vue.js - El Framework Progresivo de JavaScript"),
    ("head", .arr [
      .arr [
        .str "link",
        .obj [
          ("href", .str "https://fonts.googleapis.com/css?family=Inter:300,400,500,600|Open+Sans:400,600;display=swap"),
          ("rel", .str "stylesheet")
        ]
      ],
      .arr [
        .str "link",
        .obj [
          ("href", .str "https://stackpath.bootstrapcdn.com/font-awesome/4.7.0/css/font-awesome.min.css"),
          ("rel", .str "stylesheet")
        ]
      ],
      .arr [
        .str "link",
        .obj [
          ("rel", .str "icon"),
          ("href", .str "/logo.png")
        ]
      ],
      .arr [.str "link", .obj [("rel", .str "manifest"), ("href", .str "/manifest.json")]],
      .arr [.str "meta", .obj [("name", .str "theme-color"), ("content", .str "#3eaf7c")]],
      .arr [.str "meta", .obj [("name", .str "apple-mobile-web-app-capable"), ("content", .str "yes")]],
      .arr [
        .str "meta",
        .obj [("name", .str "apple-mobile-web-app-status-bar-style"), ("content", .str "black")]
      ],
      .arr [
        .str "link",
        .obj [
          ("rel", .str "apple-touch-icon"),
          ("href", .str "/images/icons/apple-icon-152x152.png")
        ]
      ],
      .arr [
        .str "meta",
        .obj [
          ("name", .str "msapplication-TileImage"),
          ("content", .str "/images/icons/ms-icon-144x144.png")
        ]
      ],
      .arr [.str "meta", .obj [("name", .str "msapplication-TileColor"), ("content", .str "#000000")]],
      .arr [
        comma (.str "script")
          (.obj [
            ("src", .str "https://player.vimeo.com/api/player.js")
          ])
      ],
      .arr [
        .str "script",
        .obj [
          ("src", .str "https://extend.vimeocdn.com/ga/72160148.js"),
          ("defer", .str "defer")
        ]
      ]
    ]),
    ("themeConfig", .obj [
      ("logo", .str "/logo.png"),
      ("nav", .arr [
        .obj [
          ("text", .str "Documentación"),
          ("ariaLabel", .str "Menú de Documentación"),
          ("items", .arr [
            .obj [
              ("text", .str "Guía"),
              ("link", .str "/guide/introduction")
            ],
            .obj [
              ("text", .str "Guía de Migración"),
              ("link", .str "/guide/migration/introduction")
            ],
            .obj [
              ("text", .str "Guía de Estilo"),
              ("link", .str "/style-guide/")
            ],
            .obj [
              ("text", .str "Libro de Recetas"),
              ("link", .str "/cookbook/")
            ],
            .obj [
              ("text", .str "Ejemplos"),
              ("link", .str "/examples/markdown")
            ]
          ])
        ],
        .obj [
          ("text", .str "Referencia de la API"),
          ("link", .str "/api/application-config")
        ],
        .obj [
          ("text", .str "Ecosistema"),
          ("items", .arr [
            .obj [
              ("text", .str "Comunidad"),
              ("ariaLabel", .str "Menú de Comunidad"),
              ("items", .arr [
                .obj [
                  ("text", .str "Equipo"),
                  ("link", .str "/community/team/")
                ],
                .obj [
                  ("text", .str "Socios"),
                  ("link", .str "/community/partners")
                ],
                .obj [
                  ("text", .str "Únase"),
                  ("link", .str "/community/join/")
                ],
                .obj [
                  ("text", .str "Temas"),
                  ("link", .str "/community/themes/")
                ]
              ])
            ],
            .obj [
              ("text", .str "Proyectos Oficiales"),
              ("items", .arr [
                .obj [
                  ("text", .str "Vue Router"),
                  ("link", .str "https://next.router.vuejs.org/")
                ],
                .obj [
                  ("text", .str "Vuex"),
                  ("link", .str "https://vuex.vuejs.org/")
                ],
                .obj [
                  ("text", .str "Vue CLI"),
                  ("link", .str "https://cli.vuejs.org/")
                ],
                .obj [
                  ("text", .str "Vue Test Utils"),
                  ("link", .str "https://vuejs.github.io/vue-test-utils-next-docs/guide/introduction.html")
                ],
                .obj [
                  ("text", .str "Devtools"),
                  ("link", .str "https://github.com/vuejs/vue-devtools")
                ],
                .obj [
                  ("text", .str "Noticias Semanales"),
                  ("link", .str "https://news.vuejs.org/")
                ]
              ])
            ]
          ])
        ],
        .obj [
          ("text", .str "Apoye Vue"),
          ("link", .str "/support-vuejs/"),
          ("items", .arr [
            .obj [
              ("text", .str "Donaciones Únicas"),
              ("link", .str "/support-vuejs/#one-time-donations")
            ],
            .obj [
              ("text", .str "Compromisos Recurrentes"),
              ("link", .str "/support-vuejs/#recurring-pledges")
            ],
            .obj [
              ("text", .str "Tienda de Camisetas"),
              ("link", .str "https://vue.threadless.com/")
            ]
          ])
        ]
      ]),
      ("repo", .str "vuejs/docs-next"),
      ("editLinks", .bool false),
      ("editLinkText", .str "¡Edite esto en GitHub!"),
      ("lastUpdated", .str "Actualizado por última vez"),
      ("docsDir", .str "src"),
      ("sidebarDepth", .num 2),
      ("sidebar", .obj [
        ("collapsable", .bool false),
        ("/guide/", sidebar.member "guide"),
        ("/community/", sidebar.member "guide"),
        ("/cookbook/", sidebar.member "cookbook"),
        ("/api/", sidebar.member "api"),
        ("/examples/", sidebar.member "examples")
      ]),
      ("smoothScroll", .bool false),
      ("algolia", .obj [
        ("indexName", .str "vuejs-v3"),
        ("apiKey", .str "bc6e8acb44ed4179c30d0a45d6140d3f")
      ])
    ]),
    ("plugins", .arr [
      .arr [
        .str "@vuepress/pwa",
        .obj [
          ("serviceWorker", .bool true),
          ("updatePopup", .obj [
            ("/", .obj [
              ("message", .str "Nuevo contenido disponible."),
              ("buttonText", .str "Actualizar")
            ])
          ])
        ]
      ],
      .arr [
        .str "vuepress-plugin-container",
        .obj [
          ("type", .str "info"),
          ("before", .fn .before next),
          ("after", .str "</div>")
        ]
      ]
    ]),
    ("markdown", .obj [
      ("lineNumbers", .bool true),
      ("extendMarkdown", .fn .extendMarkdown (next + 1))
    ])
  ]

/-- Building the configuration, that is evaluating the module: it takes no
argument and reads only its own literals and the constant `sidebar`; the state
passed through is the number of function objects created so far, and the
result is the exported object with the new count. -/
def buildConfig (next : Nat) : JSVal × Nat :=
  (exportsLiteral next, next + 2)

/-- The object `module.exports` holds after the module is evaluated once,
from the start. -/
def moduleExports : JSVal := (buildConfig 0).1

/-- The exported head-tag list, `module.exports.head`. -/
def head : JSVal := moduleExports.member "head"

/-- The navigation-bar entry list, `module.exports.themeConfig.nav`. -/
def nav : JSVal := (moduleExports.member "themeConfig").member "nav"

/-- The exported Sidebar Map, `module.exports.themeConfig.sidebar`. -/
def sidebarMap : JSVal := (moduleExports.member "themeConfig").member "sidebar"

/-- Whether the characters of `p` open the string `s`. -/
def beginsWith (p s : String) : Bool :=
  p.toList.isPrefixOf s.toList

/-- Whether the last character of `s` is a slash. -/
def endsWithSlash (s : String) : Bool :=
  s.toList.getLast? == some '/'

/-- The top-level path keys the specification declares for the Sidebar Map. -/
def declaredSections : List String :=
  ["/guide/", "/community/", "/cookbook/", "/api/", "/examples/"]

mutual
/-- The page-reference strings reachable in a sidebar list, in source order: a
bare string element, or a string in the `children` of a group at any depth. -/
def pageRefs : JSVal → List String
  | .str s => [s]
  | .arr items => pageRefsList items
  | .obj fields => pageRefsFields fields
  | _ => []
/-- The page references of the elements of an array. -/
def pageRefsList : List JSVal → List String
  | [] => []
  | x :: xs => pageRefs x ++ pageRefsList xs
/-- The page references under the `children` key of an object. -/
def pageRefsFields : List (String × JSVal) → List String
  | [] => []
  | (k, v) :: rest => (if k = "children" then pageRefs v else []) ++ pageRefsFields rest
end

mutual
/-- The group objects of a sidebar list, each with its nesting depth (0 for an
element of the list itself, one more for each `children` array entered). -/
def groupsAt : Nat → JSVal → List (Nat × JSVal)
  | d, .arr items => groupsAtList d items
  | d, .obj fields => (d, .obj fields) :: groupsAtFields (d + 1) fields
  | _, _ => []
/-- The groups among the elements of an array. -/
def groupsAtList : Nat → List JSVal → List (Nat × JSVal)
  | _, [] => []
  | d, x :: xs => groupsAt d x ++ groupsAtList d xs
/-- The groups under the `children` key of an object. -/
def groupsAtFields : Nat → List (String × JSVal) → List (Nat × JSVal)
  | _, [] => []
  | d, (k, v) :: rest => (if k = "children" then groupsAt d v else []) ++ groupsAtFields d rest
end

/-- The page references that are direct children of a group. -/
def childRefs (g : JSVal) : List String :=
  match g.member "children" with
  | .arr items => items.filterMap JSVal.str?
  | _ => []

/-- Every Section Group of the sidebar data with its depth: the groups of the
four lists of the constant `sidebar`. -/
def sidebarGroups : List (Nat × JSVal) :=
  groupsAtList 0 (sidebar.entries.map Prod.snd)

/-- A non-empty array whose elements are strings and objects. -/
def isSidebarList (v : JSVal) : Bool :=
  match v with
  | .arr (x :: xs) => (x :: xs).all fun
      | .str _ => true
      | .obj _ => true
      | _ => false
  | _ => false

/-- The boolean a value is, `none` when it is no boolean. -/
def JSVal.bool? (v : JSVal) : Option Bool :=
  match v with
  | .bool b => some b
  | _ => none

mutual
/-- Structural (deep) equality of two values: the same kind of value, equal
primitives, arrays equal element by element, objects with the same keys in
the same order and deep-equal values; two function values are equal only when
they are the same function object. -/
def deepEqual : JSVal → JSVal → Bool
  | .undefined, .undefined => true
  | .str a, .str b => a == b
  | .bool a, .bool b => a == b
  | .num a, .num b => a == b
  | .fn _ i, .fn _ j => decide (i = j)
  | .arr xs, .arr ys => deepEqualList xs ys
  | .obj fs, .obj gs => deepEqualFields fs gs
  | _, _ => false
/-- Deep equality of two element lists. -/
def deepEqualList : List JSVal → List JSVal → Bool
  | [], [] => true
  | x :: xs, y :: ys => deepEqual x y && deepEqualList xs ys
  | _, _ => false
/-- Deep equality of two lists of `key: value` pairs. -/
def deepEqualFields : List (String × JSVal) → List (String × JSVal) → Bool
  | [], [] => true
  | (k, v) :: fs, (l, w) :: gs => k == l && deepEqual v w && deepEqualFields fs gs
  | _, _ => false
end

/-- The parts of a configuration record that hold no function value: title,
description, head-tag list, navigation-bar entry list and Sidebar Map. -/
def dataParts (config : JSVal) : List JSVal :=
  [config.member "title", config.member "description", config.member "head",
    (config.member "themeConfig").member "nav",
    (config.member "themeConfig").member "sidebar"]

/-- The plugin configuration list of a configuration record. -/
def pluginOptions (config : JSVal) : JSVal :=
  config.member "plugins"

/-- If two lists of `key: value` pairs are deep-equal, so are the values they
give a key. -/
theorem deepEqualFields_lookupField (key : String) :
    ∀ fs gs : List (String × JSVal), deepEqualFields fs gs = true →
      deepEqual (JSVal.lookupField key fs) (JSVal.lookupField key gs) = true
  | [], [], _ => by simp [JSVal.lookupField, deepEqual]
  | [], _ :: _, h => by simp [deepEqualFields] at h
  | _ :: _, [], h => by simp [deepEqualFields] at h
  | (k, v) :: fs, (l, w) :: gs, h => by
    simp only [deepEqualFields, Bool.and_eq_true, beq_iff_eq] at h
    obtain ⟨⟨hkl, hvw⟩, hrest⟩ := h
    subst hkl
    by_cases hk : k = key
    · simpa [JSVal.lookupField, hk] using hvw
    · simpa [JSVal.lookupField, hk] using deepEqualFields_lookupField key fs gs hrest

/-- If two element lists are deep-equal, so are their elements at an index. -/
theorem deepEqualList_getD :
    ∀ (xs ys : List JSVal) (i : Nat), deepEqualList xs ys = true →
      deepEqual (xs.getD i .undefined) (ys.getD i .undefined) = true
  | [], [], _, _ => by simp [deepEqual]
  | [], _ :: _, _, h => by simp [deepEqualList] at h
  | _ :: _, [], _, h => by simp [deepEqualList] at h
  | x :: xs, y :: ys, 0, h => by
    simp only [deepEqualList, Bool.and_eq_true] at h
    simpa using h.1
  | x :: xs, y :: ys, i + 1, h => by
    simp only [deepEqualList, Bool.and_eq_true] at h
    simpa using deepEqualList_getD xs ys i h.2

/-- Deep-equal values have deep-equal elements at an index. -/
theorem deepEqual_index (v w : JSVal) (i : Nat) (h : deepEqual v w = true) :
    deepEqual (v.index i) (w.index i) = true := by
  cases v <;> cases w <;>
    first
    | (simp [deepEqual] at h; done)
    | (simp [JSVal.index, deepEqual]; done)
    | (simp only [deepEqual] at h
       exact deepEqualList_getD _ _ i h)

/-- Deep-equal values have deep-equal members. -/
theorem deepEqual_member (v w : JSVal) (key : String) (h : deepEqual v w = true) :
    deepEqual (v.member key) (w.member key) = true := by
  cases v <;> cases w <;>
    first
    | (simp [deepEqual] at h; done)
    | (simp [JSVal.member, deepEqual]; done)
    | (simp only [deepEqual] at h
       exact deepEqualFields_lookupField key _ _ h)

set_option maxRecDepth 1000000

/-! ## The Sidebar Map -/

/-- C1, as stated, fails: the exported Sidebar Map has the key `collapsable`
(line 384), which is none of the five declared path keys, so its key set is
not exactly the declared one. -/
theorem sidebarMap_keys_not_declared :
    "collapsable" ∈ sidebarMap.keys ∧ "collapsable" ∉ declaredSections ∧
      ¬ (∀ k, k ∈ sidebarMap.keys ↔ k ∈ declaredSections) :=
  ⟨by decide, by decide, fun h => absurd ((h "collapsable").1 (by decide)) (by decide)⟩

/-- C1, amended: the keys of the exported Sidebar Map are `collapsable`
followed by the five declared path keys, so a key of the map is either
`collapsable` or a declared path key, and each of these is a key. -/
theorem sidebarMap_keys :
    sidebarMap.keys = "collapsable" :: declaredSections ∧
      ∀ k, k ∈ sidebarMap.keys ↔ (k = "collapsable" ∨ k ∈ declaredSections) := by
  have h : sidebarMap.keys = "collapsable" :: declaredSections := by decide
  exact ⟨h, fun k => by rw [h, List.mem_cons]⟩

/-- C2, as stated, fails: the third element of the `/api/` list (index 2) is
the bare page reference `/api/global-api`; it is no object, so it has no title
`Opciones` and no children. -/
theorem api_third_element_is_page_reference :
    (sidebarMap.member "/api/").index 2 = .str "/api/global-api" ∧
      ¬ (((sidebarMap.member "/api/").index 0).str? = some "/api/application-config" ∧
          (((sidebarMap.member "/api/").index 2).member "title").str? = some "Opciones" ∧
          "/api/options-data" ∈ childRefs ((sidebarMap.member "/api/").index 2)) :=
  ⟨rfl, by decide⟩

/-- C2, amended: the `/api/` list of the exported Sidebar Map starts with the
string `/api/application-config`, and its fourth element (index 3) is the group
titled `Opciones`, whose children contain `/api/options-data`. -/
theorem api_list_lookup :
    (sidebarMap.member "/api/").index 0 = .str "/api/application-config" ∧
      ((sidebarMap.member "/api/").index 3).member "title" = .str "Opciones" ∧
      "/api/options-data" ∈ childRefs ((sidebarMap.member "/api/").index 3) :=
  ⟨rfl, rfl, by decide⟩

/-- C3: under every path key of the exported Sidebar Map (a key that begins
with a slash), each page reference reachable in the list occurs exactly once in
it, and at most one group of the list has it among its children. -/
theorem pageRefs_occur_once (k : String) (v : JSVal) (s : String)
    (hkv : (k, v) ∈ sidebarMap.entries) (hk : beginsWith "/" k = true)
    (hs : s ∈ pageRefs v) :
    (pageRefs v).count s = 1 ∧
      ((groupsAt 0 v).filter fun p => (childRefs p.2).contains s).length ≤ 1 := by
  have H : ∀ p ∈ sidebarMap.entries, beginsWith "/" p.1 = true →
      ∀ s ∈ pageRefs p.2, (pageRefs p.2).count s = 1 ∧
        ((groupsAt 0 p.2).filter fun q => (childRefs q.2).contains s).length ≤ 1 := by
    decide
  exact H (k, v) hkv hk s hs

/-- C3 at the `/api/` entry and the page `/api/options-data`. -/
theorem pageRefs_occur_once_witness :
    ("/api/", sidebar.member "api") ∈ sidebarMap.entries ∧
      beginsWith "/" "/api/" = true ∧
      "/api/options-data" ∈ pageRefs (sidebar.member "api") ∧
      (pageRefs (sidebar.member "api")).count "/api/options-data" = 1 ∧
      ((groupsAt 0 (sidebar.member "api")).filter
        fun p => (childRefs p.2).contains "/api/options-data").length ≤ 1 :=
  have hkv : ("/api/", sidebar.member "api") ∈ sidebarMap.entries :=
    .tail _ (.tail _ (.tail _ (.tail _ (.head _))))
  ⟨hkv, by decide, by decide,
    pageRefs_occur_once "/api/" (sidebar.member "api") "/api/options-data" hkv
      (by decide) (by decide)⟩

/-- C4, as stated, fails: the entry `collapsable` of the exported Sidebar Map
has the value `false`, which is no list. -/
theorem sidebarMap_collapsable_entry_not_list :
    sidebarMap.member "collapsable" = .bool false ∧
      ¬ (∀ p ∈ sidebarMap.entries, isSidebarList p.2 = true) :=
  ⟨rfl, by decide⟩

/-- C4, amended: an entry of the exported Sidebar Map is either one of the
five declared path keys with a non-empty list of strings and objects, or the
key `collapsable` with the boolean `false`. -/
theorem sidebarMap_entry_values (k : String) (v : JSVal)
    (hkv : (k, v) ∈ sidebarMap.entries) :
    (k ∈ declaredSections ∧ isSidebarList v = true) ∨
      (k = "collapsable" ∧ v.bool? = some false) := by
  have H : ∀ p ∈ sidebarMap.entries,
      (p.1 ∈ declaredSections ∧ isSidebarList p.2 = true) ∨
        (p.1 = "collapsable" ∧ p.2.bool? = some false) := by
    decide
  exact H (k, v) hkv

/-- C4 amended, at the `/cookbook/` entry. -/
theorem sidebarMap_entry_values_witness :
    ("/cookbook/", sidebar.member "cookbook") ∈ sidebarMap.entries ∧
      (("/cookbook/" ∈ declaredSections ∧ isSidebarList (sidebar.member "cookbook") = true) ∨
        ("/cookbook/" = "collapsable" ∧ (sidebar.member "cookbook").bool? = some false)) :=
  have hkv : ("/cookbook/", sidebar.member "cookbook") ∈ sidebarMap.entries :=
    .tail _ (.tail _ (.tail _ (.head _)))
  ⟨hkv, sidebarMap_entry_values "/cookbook/" (sidebar.member "cookbook") hkv⟩

/-! ## Section Groups -/

/-- C5, as stated, fails: in the group `Libro de Recetas` (lines 3-7) the page
reference `/cookbook/` ends with a slash and its sibling
`/cookbook/editable-svg-icons` does not, so not every group's page references
agree about the trailing slash. -/
theorem cookbook_trailing_slash_differs :
    childRefs ((sidebar.member "cookbook").index 0) =
        ["/cookbook/", "/cookbook/editable-svg-icons"] ∧
      endsWithSlash "/cookbook/" = true ∧
      endsWithSlash "/cookbook/editable-svg-icons" = false ∧
      ¬ (∀ p ∈ sidebarGroups,
          (∀ s ∈ childRefs p.2, beginsWith "/" s = true) ∧
            ((∀ s ∈ childRefs p.2, endsWithSlash s = true) ∨
              (∀ s ∈ childRefs p.2, endsWithSlash s = false))) :=
  ⟨by decide, by decide, by decide, by decide⟩

/-- C5, amended: in every Section Group of the sidebar data, at any depth,
each page reference among the children begins with a slash; in every group
other than `Libro de Recetas` the page references agree about the trailing
slash (all end with one or none does); the children of `Libro de Recetas` are
`/cookbook/` and `/cookbook/editable-svg-icons`. -/
theorem group_page_references (d : Nat) (g : JSVal) (hg : (d, g) ∈ sidebarGroups) :
    (∀ s ∈ childRefs g, beginsWith "/" s = true) ∧
      ((g.member "title").str? ≠ some "Libro de Recetas" →
        (∀ s ∈ childRefs g, endsWithSlash s = true) ∨
          (∀ s ∈ childRefs g, endsWithSlash s = false)) ∧
      ((g.member "title").str? = some "Libro de Recetas" →
        childRefs g = ["/cookbook/", "/cookbook/editable-svg-icons"]) := by
  have H : ∀ p ∈ sidebarGroups,
      (∀ s ∈ childRefs p.2, beginsWith "/" s = true) ∧
        ((p.2.member "title").str? ≠ some "Libro de Recetas" →
          (∀ s ∈ childRefs p.2, endsWithSlash s = true) ∨
            (∀ s ∈ childRefs p.2, endsWithSlash s = false)) ∧
        ((p.2.member "title").str? = some "Libro de Recetas" →
          childRefs p.2 = ["/cookbook/", "/cookbook/editable-svg-icons"]) := by
    decide
  exact H (d, g) hg

/-- C5 amended, at the group `Libro de Recetas`, the first group of the sidebar
data. -/
theorem group_page_references_witness :
    (0, (sidebar.member "cookbook").index 0) ∈ sidebarGroups ∧
      (∀ s ∈ childRefs ((sidebar.member "cookbook").index 0), beginsWith "/" s = true) ∧
      childRefs ((sidebar.member "cookbook").index 0) =
        ["/cookbook/", "/cookbook/editable-svg-icons"] :=
  have hg : (0, (sidebar.member "cookbook").index 0) ∈ sidebarGroups := .head _
  have h := group_page_references 0 ((sidebar.member "cookbook").index 0) hg
  ⟨hg, h.1, h.2.2 (by decide)⟩

/-- C7, as stated, fails: the group `Reactividad`, nested in the children of
`Guías Avanzadas` (lines 68-75), has the keys `title` and `children` only, so
not every group has the `collapsable` field. -/
theorem nested_group_without_collapsable :
    ((((sidebar.member "guide").index 4).member "children").index 0).keys =
        ["title", "children"] ∧
      ¬ (∀ p ∈ sidebarGroups,
          p.2.hasKey "title" = true ∧ p.2.hasKey "collapsable" = true) :=
  ⟨by decide, by decide⟩

/-- C7, amended: every Section Group of the sidebar data, at any depth, has
the field `title`, and it has the field `collapsable` exactly when it is a
top-level group (depth 0): the groups nested in another group's children have
none. -/
theorem group_title_and_collapsable (d : Nat) (g : JSVal)
    (hg : (d, g) ∈ sidebarGroups) :
    g.hasKey "title" = true ∧ (g.hasKey "collapsable" = true ↔ d = 0) := by
  have H : ∀ p ∈ sidebarGroups,
      p.2.hasKey "title" = true ∧ (p.2.hasKey "collapsable" = true ↔ p.1 = 0) := by
    decide
  exact H (d, g) hg

/-- C7 amended, at the top-level group `Guías Avanzadas`: it has both
fields. -/
theorem group_title_and_collapsable_witness :
    (0, (sidebar.member "guide").index 4) ∈ sidebarGroups ∧
      ((sidebar.member "guide").index 4).hasKey "title" = true ∧
      ((sidebar.member "guide").index 4).hasKey "collapsable" = true :=
  have hg : (0, (sidebar.member "guide").index 4) ∈ sidebarGroups :=
    .tail _ (.tail _ (.tail _ (.tail _ (.tail _ (.head _)))))
  have h := group_title_and_collapsable 0 ((sidebar.member "guide").index 4) hg
  ⟨hg, h.1, h.2.2 rfl⟩

/-! ## Navigation bar, head tags, construction -/

/-- C6: the first item of `themeConfig.nav` has the text `Documentación`, and
the first item of its nested `items` list has the link `/guide/introduction`. -/
theorem nav_first_item :
    (nav.index 0).member "text" = .str "Documentación" ∧
      (((nav.index 0).member "items").index 0).member "link" = .str "/guide/introduction" :=
  ⟨rfl, rfl⟩

/-- C8, as stated, fails: the module evaluated twice, the second time with
the two function objects of the first in existence, gives plugin options that
are not deep-equal, the option `before` (line 414) being function object 0 in
one and function object 2 in the other; so not every two constructions are
deep-equal. -/
theorem second_construction_not_deepEqual :
    (buildConfig 0).2 = 2 ∧
      ((((pluginOptions (buildConfig 0).1).index 1).index 1).member "before" =
        .fn .before 0) ∧
      ((((pluginOptions (buildConfig (buildConfig 0).2).1).index 1).index 1).member "before" =
        .fn .before 2) ∧
      deepEqual (pluginOptions (buildConfig 0).1)
        (pluginOptions (buildConfig (buildConfig 0).2).1) = false ∧
      deepEqual (buildConfig 0).1 (buildConfig (buildConfig 0).2).1 = false ∧
      ¬ (∀ n m, deepEqual (buildConfig n).1 (buildConfig m).1 = true) :=
  have h : deepEqual (buildConfig 0).1 (buildConfig (buildConfig 0).2).1 = false := by decide
  ⟨rfl, rfl, rfl, by decide, h, fun hall => by simp [hall] at h⟩

/-- C8, amended: a construction takes no input; whatever function objects
exist when it starts, its title, description, head-tag list, navigation-bar
list and Sidebar Map are those of the first construction, so these parts of any
two constructions are deep-equal; its plugin options are the literal of lines
397-419, in which only the function object of `before` depends on the
construction; the plugin options, and the records, of two constructions that
start from different counts of function objects are not deep-equal. -/
theorem constructions_agree_but_for_functions (n m : Nat) :
    (buildConfig n).1.keys =
        ["title", "description", "head", "themeConfig", "plugins", "markdown"] ∧
      dataParts (buildConfig n).1 =
        [.str "Vue.js", .str "Vue.js - El Framework Progresivo de JavaScript",
          head, nav, sidebarMap] ∧
      deepEqualList (dataParts (buildConfig n).1) (dataParts (buildConfig m).1) = true ∧
      pluginOptions (buildConfig n).1 =
        .arr [
          .arr [
            .str "@vuepress/pwa",
            .obj [
              ("serviceWorker", .bool true),
              ("updatePopup", .obj [
                ("/", .obj [
                  ("message", .str "Nuevo contenido disponible."),
                  ("buttonText", .str "Actualizar")
                ])
              ])
            ]
          ],
          .arr [
            .str "vuepress-plugin-container",
            .obj [
              ("type", .str "info"),
              ("before", .fn .before n),
              ("after", .str "</div>")
            ]
          ]
        ] ∧
      (n ≠ m →
        deepEqual (pluginOptions (buildConfig n).1) (pluginOptions (buildConfig m).1) = false ∧
          deepEqual (buildConfig n).1 (buildConfig m).1 = false) := by
  have hparts : ∀ k : Nat, dataParts (buildConfig k).1 =
      [.str "Vue.js", .str "Vue.js - El Framework Progresivo de JavaScript",
        head, nav, sidebarMap] := fun _ => rfl
  have hclosed : deepEqualList
      [.str "Vue.js", .str "Vue.js - El Framework Progresivo de JavaScript",
        head, nav, sidebarMap]
      [.str "Vue.js", .str "Vue.js - El Framework Progresivo de JavaScript",
        head, nav, sidebarMap] = true := by decide
  have hplugins : ∀ a b : Nat, a ≠ b →
      deepEqual (pluginOptions (buildConfig a).1) (pluginOptions (buildConfig b).1) = false := by
    intro a b hab
    cases hd : deepEqual (pluginOptions (buildConfig a).1) (pluginOptions (buildConfig b).1)
    · rfl
    · have h1 := deepEqual_index _ _ 1 (deepEqual_index _ _ 1 hd)
      have h2 : deepEqual (.fn .before a) (.fn .before b) = true :=
        deepEqual_member _ _ "before" h1
      simp only [deepEqual, decide_eq_true_eq] at h2
      exact absurd h2 hab
  refine ⟨rfl, hparts n, ?_, rfl, fun hnm => ⟨hplugins n m hnm, ?_⟩⟩
  · rw [hparts n, hparts m]; exact hclosed
  · cases hd : deepEqual (buildConfig n).1 (buildConfig m).1
    · rfl
    · have := deepEqual_member _ _ "plugins" hd
      have hp := hplugins n m hnm
      simp only [pluginOptions] at hp
      rw [hp] at this
      exact absurd this (by decide)

/-- C9 fails at the eleventh head entry (index 10, lines 254-259): the
parentheses make the string `script` the left operand of a comma operator, so the entry
is an array of one element, the attribute record, and carries no tag name; the
twelfth entry (index 11) is the pair of `script` and its attribute record, and
every entry but the eleventh is a pair of a tag name and an object. -/
theorem head_script_entry_lost_tag :
    head.index 10 = .arr [.obj [("src", .str "https://player.vimeo.com/api/player.js")]] ∧
      (head.index 10).length? = some 1 ∧
      ((head.index 10).index 0).str? = none ∧
      (head.index 10).index 1 = .undefined ∧
      head.index 11 = .arr [.str "script",
        .obj [("src", .str "https://extend.vimeocdn.com/ga/72160148.js"),
          ("defer", .str "defer")]] ∧
      head.length? = some 12 ∧
      ∀ i < 12, i ≠ 10 →
        (head.index i).length? = some 2 ∧
          (((head.index i).index 0).str? = some "link" ∨
            ((head.index i).index 0).str? = some "meta" ∨
            ((head.index i).index 0).str? = some "script") ∧
          ((head.index i).index 1).keys ≠ [] :=
  ⟨rfl, rfl, rfl, rfl, rfl, rfl, by decide⟩

/-- C10: the exported Sidebar Map gives `/community/` the list it gives
`/guide/`, the member `guide` of `sidebar`; that list has page references,
each begins with `/guide/` and none begins with `/community/`. -/
theorem community_shows_guide :
    sidebarMap.member "/community/" = sidebarMap.member "/guide/" ∧
      sidebarMap.member "/community/" = sidebar.member "guide" ∧
      (pageRefs (sidebarMap.member "/community/")).length = 77 ∧
      ∀ s ∈ pageRefs (sidebarMap.member "/community/"),
        beginsWith "/guide/" s = true ∧ beginsWith "/community/" s = false :=
  ⟨rfl, rfl, by decide, by decide⟩
